import Mathlib

/-!
Verification of the calculator in `src/calculator.py` against its
specification.  The six operations of the `Calculator` class are embedded
shallowly: Python numeric values become exact rationals (every Python int
and float denotes a rational), the floating-point results of `/`, `**`
and `** 0.5` are read in exact arithmetic (rationals, and reals for the
square root), a raised exception becomes `Except.error`, and each call's
log emission becomes an explicit list of log records returned next to the
value.
-/

/-- Severity level of a log record (`logger.info` / `logger.error`). -/
inductive LogLevel where
  | info
  | error
deriving DecidableEq, Repr

/-- One emitted log record: a severity level and the message text. -/
structure LogRecord where
  level : LogLevel
  msg : String
deriving DecidableEq, Repr

/-- The Python exceptions the calculator can raise: `ValueError` from the
explicit guards in `divide` and `square_root` (the spec's
`InvalidArgument` category), and `ZeroDivisionError` raised by `**` on a
zero base with a negative exponent. -/
inductive PyError where
  | valueError (msg : String)
  | zeroDivisionError (msg : String)
deriving DecidableEq, Repr

namespace Calculator

/-- `Calculator.add`: `result = a + b`, logs
`f"Addition: {a} + {b} = {result}"`, returns `result`. -/
def add (a b : ℚ) : ℚ × List LogRecord :=
  let result := a + b
  (result, [⟨.info, "Addition: " ++ toString a ++ " + " ++ toString b ++ " = " ++ toString result⟩])

/-- `Calculator.subtract`: `result = a - b`, logs
`f"Subtraction: {a} - {b} = {result}"`, returns `result`. -/
def subtract (a b : ℚ) : ℚ × List LogRecord :=
  let result := a - b
  (result, [⟨.info, "Subtraction: " ++ toString a ++ " - " ++ toString b ++ " = " ++ toString result⟩])

/-- `Calculator.multiply`: `result = a * b`, logs
`f"Multiplication: {a} * {b} = {result}"`, returns `result`. -/
def multiply (a b : ℚ) : ℚ × List LogRecord :=
  let result := a * b
  (result, [⟨.info, "Multiplication: " ++ toString a ++ " * " ++ toString b ++ " = " ++ toString result⟩])

/-- `Calculator.divide`: if `b == 0` it logs
`"Division by zero attempted"` at error level and raises
`ValueError("Cannot divide by zero")`; otherwise `result = a / b`
(Python true division, exact in this embedding), logs
`f"Division: {a} / {b} = {result}"` and returns `result`. -/
def divide (a b : ℚ) : Except PyError ℚ × List LogRecord :=
  if b = 0 then
    (.error (.valueError "Cannot divide by zero"), [⟨.error, "Division by zero attempted"⟩])
  else
    let result := a / b
    (.ok result, [⟨.info, "Division: " ++ toString a ++ " / " ++ toString b ++ " = " ++ toString result⟩])

/-- `Calculator.power`: `result = base ** exponent`.  Python's `**` raises
`ZeroDivisionError` on a zero base with a negative exponent, before the
`logger.info` line runs, so in that case no log record is emitted.
Otherwise it logs `f"Power: {base} ^ {exponent} = {result}"` and returns
the exact value `base ^ exponent`.  The embedding covers integer
exponents, where Python's `**` is exact real arithmetic. -/
def power (base : ℚ) (exponent : ℤ) : Except PyError ℚ × List LogRecord :=
  if base = 0 ∧ exponent < 0 then
    (.error (.zeroDivisionError "0.0 cannot be raised to a negative power"), [])
  else
    let result := base ^ exponent
    (.ok result, [⟨.info, "Power: " ++ toString base ++ " ^ " ++ toString exponent ++ " = " ++ toString result⟩])

/-- `Calculator.square_root`, value part: if `number < 0` it raises
`ValueError("Cannot calculate square root of negative number")`;
otherwise it returns `number ** 0.5`, read in exact arithmetic as the
non-negative real square root. -/
noncomputable def square_root (number : ℚ) : Except PyError ℝ :=
  if number < 0 then
    .error (.valueError "Cannot calculate square root of negative number")
  else
    .ok (Real.sqrt (number : ℝ))

/-- `Calculator.square_root`, log part: on a negative input it logs
`"Square root of negative number attempted"` at error level; otherwise it
logs `f"Square root: √{number} = {result}"`.  The rendered text of the
floating-point result is abstracted as the parameter `resultStr`, since
the exact real result has no canonical decimal rendering. -/
def square_root_logs (number : ℚ) (resultStr : String) : List LogRecord :=
  if number < 0 then
    [⟨.error, "Square root of negative number attempted"⟩]
  else
    [⟨.info, "Square root: √" ++ toString number ++ " = " ++ resultStr⟩]

end Calculator

/-- One invocation of a `Calculator` method, with its arguments. -/
inductive Op where
  | add (a b : ℚ)
  | subtract (a b : ℚ)
  | multiply (a b : ℚ)
  | divide (a b : ℚ)
  | power (base : ℚ) (exponent : ℤ)
  | square_root (n : ℚ)
deriving DecidableEq

/-- The value (or exception) returned by one invocation, with all numeric
results cast into `ℝ` so that the six operations share one result type. -/
noncomputable def evalOp : Op → Except PyError ℝ
  | .add a b => .ok ((Calculator.add a b).1 : ℝ)
  | .subtract a b => .ok ((Calculator.subtract a b).1 : ℝ)
  | .multiply a b => .ok ((Calculator.multiply a b).1 : ℝ)
  | .divide a b => ((Calculator.divide a b).1).map (fun q => (q : ℝ))
  | .power base exponent => ((Calculator.power base exponent).1).map (fun q => (q : ℝ))
  | .square_root n => Calculator.square_root n

/-- The `Calculator` class: its `__init__` stores nothing, so an instance
carries no state. -/
structure Calculator where

/-- Invoking a method on a `Calculator` instance.  The Python methods
never read or write `self`, so the instance parameter is unused. -/
noncomputable def Calculator.call (_self : Calculator) (op : Op) : Except PyError ℝ :=
  evalOp op

/-- Running a sequence of calls against the process-wide logging sink
(the only process state): each call appends its log records — given by
the rendering function `logsOf` — to the sink and produces its result.
Returns the list of results and the final sink contents. -/
noncomputable def runTrace (logsOf : Op → List LogRecord) :
    List LogRecord → List Op → List (Except PyError ℝ) × List LogRecord
  | sink, [] => ([], sink)
  | sink, op :: rest =>
    let out := evalOp op
    let next := runTrace logsOf (sink ++ logsOf op) rest
    (out :: next.1, next.2)

/-- `hasSeg pat l` decides whether `pat` occurs as a contiguous segment
of `l`; used to analyse the shape of emitted log messages. -/
def hasSeg (pat : List Char) : List Char → Bool
  | [] => pat.isEmpty
  | c :: rest => pat.isPrefixOf (c :: rest) || hasSeg pat rest

/-- C1: `divide(a,b)` fails with a `ValueError` (the spec's
`InvalidArgument`) exactly when `b = 0`, and otherwise succeeds with the
quotient `a / b`. -/
theorem divide_spec (a b : ℚ) :
    ((Calculator.divide a b).1 = .error (.valueError "Cannot divide by zero") ↔ b = 0) ∧
    (b ≠ 0 → (Calculator.divide a b).1 = .ok (a / b)) := by
  constructor
  · constructor
    · intro h
      by_contra hb
      simp [Calculator.divide, hb] at h
    · intro hb
      simp [Calculator.divide, hb]
  · intro hb
    simp [Calculator.divide, hb]

/-- Witness for C1 at `a = 15, b = 3` and `a = 10, b = 0`. -/
theorem divide_spec_witness :
    (Calculator.divide 10 0).1 = .error (.valueError "Cannot divide by zero") ∧
    (Calculator.divide 15 3).1 = .ok 5 := by
  constructor
  · exact (divide_spec 10 0).1.mpr rfl
  · have h := (divide_spec 15 3).2 (by norm_num)
    rw [h]
    norm_num

/-- C2: `square_root(n)` fails with a `ValueError` (the spec's
`InvalidArgument`) exactly when `n < 0`, and when `n ≥ 0` it succeeds and
returns the non-negative real square root of `n`. -/
theorem square_root_spec (n : ℚ) :
    (n < 0 → Calculator.square_root n
      = .error (.valueError "Cannot calculate square root of negative number")) ∧
    (0 ≤ n → ∃ r : ℝ, Calculator.square_root n = .ok r ∧ 0 ≤ r ∧ r ^ 2 = (n : ℝ)) := by
  constructor
  · intro h
    simp [Calculator.square_root, h]
  · intro h
    refine ⟨Real.sqrt (n : ℝ), ?_, Real.sqrt_nonneg _, ?_⟩
    · simp [Calculator.square_root, not_lt.mpr h]
    · exact Real.sq_sqrt (by exact_mod_cast h)

/-- Witness for C2 at `n = -4` and `n = 25`. -/
theorem square_root_spec_witness :
    (Calculator.square_root (-4)
      = .error (.valueError "Cannot calculate square root of negative number")) ∧
    ∃ r : ℝ, Calculator.square_root 25 = .ok r ∧ 0 ≤ r ∧ r ^ 2 = ((25 : ℚ) : ℝ) :=
  ⟨(square_root_spec (-4)).1 (by norm_num), (square_root_spec 25).2 (by norm_num)⟩

/-- C4: for `b ≠ 0`, multiplying the result of `divide(a,b)` by `b`
recovers `a` exactly in the exact-arithmetic embedding. -/
theorem divide_multiply_roundtrip (a b : ℚ) (hb : b ≠ 0) :
    ((Calculator.divide a b).1).map (fun q => (Calculator.multiply q b).1) = .ok a := by
  simp [Calculator.divide, hb, Calculator.multiply, Except.map, div_mul_cancel₀ a hb]

/-- Witness for C4 at `a = 15, b = 3`. -/
theorem divide_multiply_roundtrip_witness :
    ((Calculator.divide 15 3).1).map (fun q => (Calculator.multiply q 3).1) = .ok 15 :=
  divide_multiply_roundtrip 15 3 (by norm_num)

/-- C5: the values returned by `add` and `multiply` are commutative in
their two arguments. -/
theorem add_multiply_comm (a b : ℚ) :
    (Calculator.add a b).1 = (Calculator.add b a).1 ∧
    (Calculator.multiply a b).1 = (Calculator.multiply b a).1 := by
  constructor
  · simp [Calculator.add, add_comm]
  · simp [Calculator.multiply, mul_comm]

/-- C7: the literal scenarios of the spec (and of the driver routine):
`add(5,3)=8`, `subtract(10,4)=6`, `multiply(6,7)=42`, `divide(15,3)=5`,
`power(2,8)=256`, `square_root(25)=5.0`. -/
theorem literal_scenarios :
    (Calculator.add 5 3).1 = 8 ∧
    (Calculator.subtract 10 4).1 = 6 ∧
    (Calculator.multiply 6 7).1 = 42 ∧
    (Calculator.divide 15 3).1 = .ok 5 ∧
    (Calculator.power 2 8).1 = .ok 256 ∧
    Calculator.square_root 25 = .ok 5 := by
  refine ⟨by norm_num [Calculator.add], by norm_num [Calculator.subtract],
    by norm_num [Calculator.multiply], by norm_num [Calculator.divide],
    by norm_num [Calculator.power], ?_⟩
  simp only [Calculator.square_root]
  rw [if_neg (by norm_num)]
  congr 1
  rw [show ((25 : ℚ) : ℝ) = 5 ^ 2 by norm_num]
  exact Real.sqrt_sq (by norm_num)

/-- C10: `power(a, 0)` succeeds and returns `1` for every `a`, including
`a = 0` (Python evaluates `0 ** 0` to `1`). -/
theorem power_zero_exponent (a : ℚ) :
    (Calculator.power a 0).1 = .ok 1 := by
  simp [Calculator.power]

/-- C3 counterexample: `power(0, -1)` does not succeed — Python's `**`
raises `ZeroDivisionError` on a zero base with a negative exponent, so
`power` is not total. -/
theorem power_total_counterexample :
    (Calculator.power 0 (-1)).1
      = .error (.zeroDivisionError "0.0 cannot be raised to a negative power") := by
  simp [Calculator.power]

/-- C3 amended: over integer exponents, `power(base, exponent)` fails
(with `ZeroDivisionError`) exactly when `base = 0` and `exponent < 0`;
in every other case it succeeds and returns `base ^ exponent`. -/
theorem power_spec (base : ℚ) (exponent : ℤ) :
    ((Calculator.power base exponent).1
        = .error (.zeroDivisionError "0.0 cannot be raised to a negative power")
      ↔ base = 0 ∧ exponent < 0) ∧
    (¬(base = 0 ∧ exponent < 0) →
      (Calculator.power base exponent).1 = .ok (base ^ exponent)) := by
  constructor
  · constructor
    · intro h
      by_contra hc
      simp [Calculator.power, hc] at h
    · intro hc
      simp [Calculator.power, hc]
  · intro hc
    simp [Calculator.power, hc]

/-- Witness for C3 (amended) at `base = 2, exponent = 8` and
`base = 0, exponent = -1`. -/
theorem power_spec_witness :
    (Calculator.power 2 8).1 = .ok 256 ∧
    (Calculator.power 0 (-1)).1
      = .error (.zeroDivisionError "0.0 cannot be raised to a negative power") := by
  constructor
  · have h := (power_spec 2 8).2 (by norm_num)
    rw [h]
    norm_num
  · exact (power_spec 0 (-1)).1.mpr ⟨rfl, by norm_num⟩

/-- C6: `square_root(power(x, 2))` succeeds for every rational `x` and
returns `|x|`, the absolute value of `x`. -/
theorem sqrt_power_sq_abs (x : ℚ) :
    ((Calculator.power x 2).1).bind Calculator.square_root = .ok ((|x| : ℚ) : ℝ) := by
  have h1 : (Calculator.power x 2).1 = .ok (x ^ (2 : ℤ)) := by
    simp [Calculator.power]
  have h2 : ¬ (x ^ (2 : ℤ) < 0) := not_lt.mpr (by positivity)
  rw [h1]
  show Calculator.square_root (x ^ (2 : ℤ)) = .ok ((|x| : ℚ) : ℝ)
  simp only [Calculator.square_root, if_neg h2]
  congr 1
  rw [show ((x ^ (2 : ℤ) : ℚ) : ℝ) = (x : ℝ) ^ 2 by rw [zpow_two, pow_two]; push_cast; ring]
  rw [Real.sqrt_sq_eq_abs]
  push_cast
  rfl

/-- Results of each invocation depend only on the invocation itself:
`runTrace` maps each operation to `evalOp` of that operation, regardless
of the earlier state of the logging sink. -/
theorem runTrace_fst (logsOf : Op → List LogRecord) (sink : List LogRecord) (ops : List Op) :
    (runTrace logsOf sink ops).1 = ops.map evalOp := by
  induction ops generalizing sink with
  | nil => rfl
  | cons op rest ih => simp [runTrace, ih]

/-- C9: the operations are stateless and deterministic — the results of a
call sequence do not depend on the logging sink's prior contents (the
only process-wide state), nor on how log records are rendered, and a
fixed operation called on any two `Calculator` instances returns the same
result. -/
theorem operations_stateless (f g : Op → List LogRecord)
    (sink1 sink2 : List LogRecord) (ops : List Op) (c1 c2 : Calculator) (op : Op) :
    (runTrace f sink1 ops).1 = ops.map evalOp ∧
    (runTrace f sink1 ops).1 = (runTrace g sink2 ops).1 ∧
    c1.call op = c2.call op :=
  ⟨runTrace_fst f sink1 ops, by rw [runTrace_fst, runTrace_fst], rfl⟩

/-- Appending turns into list append on the character data. -/
theorem string_data_append (s t : String) : (s ++ t).data = s.data ++ t.data := rfl

/-- A list is a prefix of itself followed by anything. -/
theorem isPrefixOf_self_append (p v : List Char) : p.isPrefixOf (p ++ v) = true := by
  induction p with
  | nil => simp [List.isPrefixOf]
  | cons c cs ih => simp [List.isPrefixOf, ih]

/-- `hasSeg` finds the pattern at the front. -/
theorem hasSeg_self (pat v : List Char) : hasSeg pat (pat ++ v) = true := by
  cases hp : pat ++ v with
  | nil =>
    have h1 : pat = [] := (List.append_eq_nil.mp hp).1
    subst h1
    rfl
  | cons c rest =>
    have h := isPrefixOf_self_append pat v
    rw [hp] at h
    simp [hasSeg, h]

/-- `hasSeg` finds the pattern anywhere: a list of the shape
`u ++ (pat ++ v)` contains `pat` as a segment. -/
theorem hasSeg_append (pat u v : List Char) : hasSeg pat (u ++ (pat ++ v)) = true := by
  induction u with
  | nil => simpa using hasSeg_self pat v
  | cons c cs ih =>
    simp only [List.cons_append]
    simp [hasSeg, ih]

/-- C8 counterexample: at `n = 25` (code result `5.0`) the informational
log line of `square_root` is `"Square root: √25 = 5.0"`, which is not of
the two-operand form `"<OperationName>: <a> <op> <b> = <result>"` for any
operation name, operator symbol and second operand; moreover `power`'s
failing call `power(0, -1)` raises before logging and emits no error
line. -/
theorem log_form_counterexample :
    Calculator.square_root_logs 25 "5.0" = [⟨.info, "Square root: √25 = 5.0"⟩] ∧
    (¬ ∃ name op b : String,
      "Square root: √25 = 5.0"
        = name ++ ": " ++ "25" ++ " " ++ op ++ " " ++ b ++ " = " ++ "5.0") ∧
    (Calculator.power 0 (-1)).2 = [] := by
  refine ⟨by decide, ?_, by simp [Calculator.power]⟩
  rintro ⟨name, op, b, h⟩
  have hd := congrArg String.data h
  have e3 : (name ++ ": " ++ "25" ++ " " ++ op ++ " " ++ b ++ " = " ++ "5.0").data
      = name.data ++ ((": 25 ").data
        ++ (op.data ++ ((" ").data ++ (b.data ++ (" = 5.0").data)))) := by
    simp only [string_data_append, List.append_assoc]
    rfl
  have hseg : hasSeg (": 25 ").data (("Square root: √25 = 5.0").data) = true := by
    rw [hd, e3]
    exact hasSeg_append _ _ _
  exact absurd hseg (by decide)

/-- C8 amended: every call emits exactly one log record — informational
on success, error-severity on a rejected input — except `power`'s failing
call, which raises before logging and emits none.  The informational
messages of `add`, `subtract`, `multiply`, `divide` and `power` have the
two-operand form `"<OperationName>: <a> <op> <b> = <result>"`, while
`square_root`'s has the one-operand form `"Square root: √<n> = <result>"`. -/
theorem log_emission (a b n : ℚ) (e : ℤ) (rs : String) :
    (Calculator.add a b).2
      = [⟨.info, "Addition" ++ ": " ++ toString a ++ " " ++ "+" ++ " " ++ toString b
          ++ " = " ++ toString (a + b)⟩] ∧
    (Calculator.subtract a b).2
      = [⟨.info, "Subtraction" ++ ": " ++ toString a ++ " " ++ "-" ++ " " ++ toString b
          ++ " = " ++ toString (a - b)⟩] ∧
    (Calculator.multiply a b).2
      = [⟨.info, "Multiplication" ++ ": " ++ toString a ++ " " ++ "*" ++ " " ++ toString b
          ++ " = " ++ toString (a * b)⟩] ∧
    (b ≠ 0 → (Calculator.divide a b).2
      = [⟨.info, "Division" ++ ": " ++ toString a ++ " " ++ "/" ++ " " ++ toString b
          ++ " = " ++ toString (a / b)⟩]) ∧
    (b = 0 → (Calculator.divide a b).2 = [⟨.error, "Division by zero attempted"⟩]) ∧
    (¬(a = 0 ∧ e < 0) → (Calculator.power a e).2
      = [⟨.info, "Power" ++ ": " ++ toString a ++ " " ++ "^" ++ " " ++ toString e
          ++ " = " ++ toString (a ^ e)⟩]) ∧
    (a = 0 ∧ e < 0 → (Calculator.power a e).2 = []) ∧
    (0 ≤ n → Calculator.square_root_logs n rs
      = [⟨.info, "Square root: √" ++ toString n ++ " = " ++ rs⟩]) ∧
    (n < 0 → Calculator.square_root_logs n rs
      = [⟨.error, "Square root of negative number attempted"⟩]) := by
  refine ⟨?_, ?_, ?_, ?_, ?_, ?_, ?_, ?_, ?_⟩
  · refine congrArg (fun m => [(⟨LogLevel.info, m⟩ : LogRecord)]) (String.ext ?_)
    simp only [string_data_append, List.append_assoc]
    rfl
  · refine congrArg (fun m => [(⟨LogLevel.info, m⟩ : LogRecord)]) (String.ext ?_)
    simp only [string_data_append, List.append_assoc]
    rfl
  · refine congrArg (fun m => [(⟨LogLevel.info, m⟩ : LogRecord)]) (String.ext ?_)
    simp only [string_data_append, List.append_assoc]
    rfl
  · intro hb
    rw [Calculator.divide, if_neg hb]
    refine congrArg (fun m => [(⟨LogLevel.info, m⟩ : LogRecord)]) (String.ext ?_)
    simp only [string_data_append, List.append_assoc]
    rfl
  · intro hb
    simp [Calculator.divide, hb]
  · intro hc
    rw [Calculator.power, if_neg hc]
    refine congrArg (fun m => [(⟨LogLevel.info, m⟩ : LogRecord)]) (String.ext ?_)
    simp only [string_data_append, List.append_assoc]
    rfl
  · intro hc
    simp [Calculator.power, hc]
  · intro hn
    rw [Calculator.square_root_logs, if_neg (not_lt.mpr hn)]
  · intro hn
    simp [Calculator.square_root_logs, hn]

/-- Witness for C8 (amended) at `add(5,3)`, `divide(10,0)`,
`power(0,-1)` and `square_root(25)` (code result `5.0`). -/
theorem log_emission_witness :
    (Calculator.add 5 3).2 = [⟨.info, "Addition: 5 + 3 = 8"⟩] ∧
    (Calculator.divide 10 0).2 = [⟨.error, "Division by zero attempted"⟩] ∧
    (Calculator.power 0 (-1)).2 = [] ∧
    Calculator.square_root_logs 25 "5.0" = [⟨.info, "Square root: √25 = 5.0"⟩] := by
  refine ⟨?_, ?_, ?_, ?_⟩
  · have h := (log_emission 5 3 0 0 "").1
    rw [h, show (5 + 3 : ℚ) = 8 by norm_num]
    decide
  · exact (log_emission 10 0 0 0 "").2.2.2.2.1 rfl
  · exact (log_emission 0 3 0 (-1) "").2.2.2.2.2.2.1 ⟨rfl, by norm_num⟩
  · have h := (log_emission 0 1 25 0 "5.0").2.2.2.2.2.2.2.1 (by norm_num)
    rw [h]
    decide
